import Mathlib

/-!
Verification of the extensibility core of an ASN.1 BER/DER codec
(src/src/traits.rs). The file embeds the blanket parser entry points
(FromBer, FromDer), the tag-identity traits (Tagged, DynTagged), the
DER constraint gate (CheckDerConstraints) and the serializer trait
(ToDer) as Lean definitions, and proves the documented properties of
those definitions.

External collaborators (the generic decoded node, the tag and length
data, the error enumeration, the low-level decoder and the byte sink)
are not part of the inspected source; they are modelled from the
specification, as the doc comments record.
-/

namespace Asn1

/-- Modelled from the spec: the class namespace of a wire node, one of
universal, application, context or private. -/
inductive Class where
  | Universal
  | Application
  | ContextSpecific
  | Private
  deriving DecidableEq

/-- Modelled from the spec: the numeric tag identifier of a wire node. -/
structure Tag where
  num : Nat
  deriving DecidableEq

/-- Modelled from the spec: the length field of a decoded header, either a
definite byte count or the indefinite form terminated by an
end-of-contents marker. -/
inductive Length where
  | Definite (n : Nat)
  | Indefinite
  deriving DecidableEq

/-- Definite-form test on a length, mirroring Length::is_definite of the
external crate as the spec describes it. -/
def Length.isDefinite : Length → Bool
  | .Definite _ => true
  | .Indefinite => false

/-- Modelled from the spec: the header of a generic decoded node, holding
class, constructed flag, tag and length. -/
structure Header where
  cls : Class
  constructed : Bool
  tag : Tag
  length : Length
  deriving DecidableEq

/-- Modelled from the spec: the generic decoded node (called Any in the
source), a header plus the raw, unparsed content byte range. -/
structure Any where
  header : Header
  data : List Nat
  deriving DecidableEq

/-- Modelled from the spec: the error enumeration; it carries at least the
DER indefinite-length-unexpected kind plus opaque per-type conversion and
constraint failures, here an opaque numeric code. -/
inductive Error where
  | IndefiniteLengthUnexpected
  | Custom (code : Nat)
  deriving DecidableEq

/-- Modelled from the spec: the three-way result discipline of the
incremental-parsing infrastructure: incomplete (need more bytes),
recoverable error, or terminal failure. -/
inductive NomErr (E : Type) where
  | Incomplete (needed : Nat)
  | Error (e : E)
  | Failure (e : E)
  deriving DecidableEq

/-- Result of a parse: either the remaining bytes paired with the value, or
a three-way error. -/
def ParseResult (α : Type) : Type :=
  Except (NomErr Error) (List Nat × α)

/-- Modelled from the spec: the class bits (top two bits of the identifier
octet) of a wire node. -/
def Class.ofBits : Nat → Class
  | 0 => .Universal
  | 1 => .Application
  | 2 => .ContextSpecific
  | _ => .Private

/-- Modelled from the spec: split an indefinite-length content region at its
end-of-contents marker (two zero octets), returning the content before the
marker and the bytes after it, or nothing when no marker is present. -/
def splitAtEoc : List Nat → Option (List Nat × List Nat)
  | [] => none
  | [_] => none
  | 0 :: 0 :: rest => some ([], rest)
  | b :: rest =>
    match splitAtEoc rest with
    | none => none
    | some (content, rem) => some (b :: content, rem)

/-- Modelled from the spec: the external low-level decoder turning a byte
slice into one generic decoded node (header plus raw content) and the
remaining bytes. Identifier octet: class in the top two bits, constructed
flag in bit five, tag number in the low five bits. Length octet: a value
below 128 is a short definite length, 128 marks the indefinite form whose
content runs to the end-of-contents marker, and larger values announce that
many following length octets in base 256. Missing bytes yield the
incomplete outcome. -/
def Any.fromBer (input : List Nat) : ParseResult Any :=
  match input with
  | [] => .error (.Incomplete 2)
  | [_] => .error (.Incomplete 1)
  | idOct :: lenOct :: rest =>
    let hCls := Class.ofBits (idOct / 64)
    let constructed := decide (idOct / 32 % 2 = 1)
    let tagNum := idOct % 32
    if lenOct < 128 then
      if rest.length < lenOct then
        .error (.Incomplete (lenOct - rest.length))
      else
        .ok (rest.drop lenOct,
          ⟨⟨hCls, constructed, ⟨tagNum⟩, .Definite lenOct⟩, rest.take lenOct⟩)
    else if lenOct = 128 then
      match splitAtEoc rest with
      | none => .error (.Incomplete 2)
      | some (content, rem) =>
        .ok (rem, ⟨⟨hCls, constructed, ⟨tagNum⟩, .Indefinite⟩, content⟩)
    else
      let k := lenOct - 128
      if rest.length < k then
        .error (.Incomplete (k - rest.length))
      else
        let len := (rest.take k).foldl (fun acc b => acc * 256 + b) 0
        let rest2 := rest.drop k
        if rest2.length < len then
          .error (.Incomplete (len - rest2.length))
        else
          .ok (rest2.drop len,
            ⟨⟨hCls, constructed, ⟨tagNum⟩, .Definite len⟩, rest2.take len⟩)

/-- Modelled from the spec: the DER entry point of the external low-level
decoder. The spec describes a single decoder producing a generic node from
a byte slice for both the BER and the DER entry points, so the structural
decoding step agrees with the BER one; the DER-only restrictions are
layered on top by the blanket FromDer implementation below. -/
def Any.fromDer (input : List Nat) : ParseResult Any :=
  Any.fromBer input

/-- Blanket FromBer implementation (src/src/traits.rs, lines 55 to 64) for
a type with a conversion from the generic decoded node: decode one node,
convert it, and escalate a conversion error to the terminal failure
variant. The conversion argument stands for the TryFrom implementation of
the concrete type. -/
def fromBer {β : Type} (conv : Any → Except Error β) (bytes : List Nat) :
    ParseResult β :=
  match Any.fromBer bytes with
  | .error e => .error e
  | .ok (i, any) =>
    match conv any with
    | .error e => .error (.Failure e)
    | .ok result => .ok (i, result)

/-- Blanket FromDer implementation (src/src/traits.rs, lines 76 to 91):
decode one node, reject an indefinite-form length with the dedicated
error, run the DER constraint check, then convert; every post-decode error
is escalated to the terminal failure variant. The check argument stands
for the CheckDerConstraints implementation of the concrete type. -/
def fromDer {β : Type} (check : Any → Except Error Unit)
    (conv : Any → Except Error β) (bytes : List Nat) : ParseResult β :=
  match Any.fromDer bytes with
  | .error e => .error e
  | .ok (i, any) =>
    if !any.header.length.isDefinite then
      .error (.Failure .IndefiniteLengthUnexpected)
    else
      match check any with
      | .error e => .error (.Failure e)
      | .ok _ =>
        match conv any with
        | .error e => .error (.Failure e)
        | .ok result => .ok (i, result)

/-- Conversion used by witnesses: the identity conversion of the generic
node, mirroring that the node type converts from itself. -/
def anyConv : Any → Except Error Any := fun a => .ok a

/-- Conversion used by witnesses: a conversion rejecting every node with an
opaque error. -/
def rejectConv : Any → Except Error Any := fun _ => .error (.Custom 7)

/-- Constraint check used by witnesses: accepts every node. -/
def okCheck : Any → Except Error Unit := fun _ => .ok ()

/-- Constraint check used by witnesses: rejects every node with an opaque
error. -/
def rejectCheck : Any → Except Error Unit := fun _ => .error (.Custom 9)

/-- C1: the DER entry point refines the BER entry point: whenever from_der
succeeds on a byte sequence, from_ber succeeds on the same bytes with the
same remaining bytes and the same value, for every conversion and every
constraint check. -/
theorem fromDer_refines_fromBer {β : Type} (check : Any → Except Error Unit)
    (conv : Any → Except Error β) (bytes i : List Nat) (r : β)
    (h : fromDer check conv bytes = .ok (i, r)) :
    fromBer conv bytes = .ok (i, r) := by
  unfold fromDer Any.fromDer at h
  unfold fromBer
  cases hd : Any.fromBer bytes with
  | error e => rw [hd] at h; exact absurd h (by simp)
  | ok p =>
    obtain ⟨j, any⟩ := p
    rw [hd] at h
    simp only at h ⊢
    by_cases hdef : any.header.length.isDefinite
    · rw [hdef] at h
      simp only [Bool.not_true, Bool.false_eq_true, if_false] at h
      cases hc : check any with
      | error e => rw [hc] at h; exact absurd h (by simp)
      | ok u =>
        rw [hc] at h
        cases hv : conv any with
        | error e => simp only [hv] at h; exact absurd h (by simp)
        | ok r2 => simp only [hv] at h ⊢; exact h
    · rw [Bool.not_eq_true] at hdef
      rw [hdef] at h
      simp only [Bool.not_false, if_true] at h
      exact absurd h (by simp)

/-- C1 witness: on the canonical three-byte integer encoding, from_der
succeeds, and the theorem transports that success to from_ber. -/
theorem fromDer_refines_fromBer_witness :
    fromBer anyConv [2, 1, 4] =
      .ok ([], ⟨⟨.Universal, false, ⟨2⟩, .Definite 1⟩, [4]⟩) :=
  fromDer_refines_fromBer okCheck anyConv [2, 1, 4] []
    ⟨⟨.Universal, false, ⟨2⟩, .Definite 1⟩, [4]⟩ rfl

/-- C2: once the low-level decoder has produced a generic node, every
subsequent error escalates to the terminal failure variant, never the
incomplete one: a conversion error under from_ber, and an indefinite
length, a constraint rejection or a conversion error under from_der. -/
theorem decoded_errors_escalate_to_failure {β : Type}
    (conv : Any → Except Error β) (check : Any → Except Error Unit)
    (bytes i : List Nat) (any : Any)
    (hdec : Any.fromBer bytes = .ok (i, any)) :
    (∀ e, conv any = .error e → fromBer conv bytes = .error (.Failure e)) ∧
    (any.header.length.isDefinite = false →
      fromDer check conv bytes = .error (.Failure .IndefiniteLengthUnexpected)) ∧
    (∀ e, any.header.length.isDefinite = true → check any = .error e →
      fromDer check conv bytes = .error (.Failure e)) ∧
    (∀ e u, any.header.length.isDefinite = true → check any = .ok u →
      conv any = .error e → fromDer check conv bytes = .error (.Failure e)) := by
  refine ⟨?_, ?_, ?_, ?_⟩
  · intro e he
    simp [fromBer, hdec, he]
  · intro hind
    simp [fromDer, Any.fromDer, hdec, hind]
  · intro e hdef hchk
    simp [fromDer, Any.fromDer, hdec, hdef, hchk]
  · intro e u hdef hchk hconv
    simp [fromDer, Any.fromDer, hdec, hdef, hchk, hconv]

/-- C2 witness: on the canonical three-byte integer encoding, a rejecting
conversion makes from_ber return the terminal failure with that error. -/
theorem decoded_errors_escalate_to_failure_witness :
    fromBer rejectConv [2, 1, 4] = .error (.Failure (.Custom 7)) :=
  (decoded_errors_escalate_to_failure rejectConv okCheck [2, 1, 4] []
      ⟨⟨.Universal, false, ⟨2⟩, .Definite 1⟩, [4]⟩ rfl).1 (.Custom 7) rfl

/-- C3: a byte sequence decoding to a node with an indefinite-form length is
rejected by from_der with the indefinite-length error, while from_ber
accepts the same bytes whenever the conversion accepts the node. -/
theorem indefinite_rejected_by_der_accepted_by_ber {β : Type}
    (conv : Any → Except Error β) (check : Any → Except Error Unit)
    (bytes i : List Nat) (any : Any) (r : β)
    (hdec : Any.fromBer bytes = .ok (i, any))
    (hind : any.header.length = .Indefinite)
    (hconv : conv any = .ok r) :
    fromDer check conv bytes = .error (.Failure .IndefiniteLengthUnexpected) ∧
    fromBer conv bytes = .ok (i, r) := by
  constructor
  · simp [fromDer, Any.fromDer, hdec, hind, Length.isDefinite]
  · simp [fromBer, hdec, hconv]

/-- C3 witness: a constructed node in indefinite form with an immediate
end-of-contents marker is accepted by from_ber and rejected by from_der
with the indefinite-length error. -/
theorem indefinite_rejected_by_der_accepted_by_ber_witness :
    fromDer okCheck anyConv [48, 128, 0, 0] =
      .error (.Failure .IndefiniteLengthUnexpected) ∧
    fromBer anyConv [48, 128, 0, 0] =
      .ok ([], ⟨⟨.Universal, true, ⟨16⟩, .Indefinite⟩, []⟩) :=
  indefinite_rejected_by_der_accepted_by_ber anyConv okCheck [48, 128, 0, 0]
    [] ⟨⟨.Universal, true, ⟨16⟩, .Indefinite⟩, []⟩
    ⟨⟨.Universal, true, ⟨16⟩, .Indefinite⟩, []⟩ rfl rfl rfl

/-- C4: in from_der the constraint check runs before the conversion: when
the check rejects the decoded node, from_der returns that failure, and the
result does not depend on the conversion at all, so the conversion is never
invoked. The check is a pure function of the node and cannot mutate it. -/
theorem der_constraint_check_precedes_conversion {β : Type}
    (check : Any → Except Error Unit) (conv conv2 : Any → Except Error β)
    (bytes i : List Nat) (any : Any) (e : Error)
    (hdec : Any.fromDer bytes = .ok (i, any))
    (hdef : any.header.length.isDefinite = true)
    (hchk : check any = .error e) :
    fromDer check conv bytes = .error (.Failure e) ∧
    fromDer check conv bytes = fromDer check conv2 bytes := by
  have h1 : fromDer check conv bytes = .error (.Failure e) := by
    simp [fromDer, hdec, hdef, hchk]
  have h2 : fromDer check conv2 bytes = .error (.Failure e) := by
    simp [fromDer, hdec, hdef, hchk]
  exact ⟨h1, h1.trans h2.symm⟩

/-- C4 witness: on the canonical three-byte integer encoding, a rejecting
constraint check makes from_der return that failure, for two different
conversions. -/
theorem der_constraint_check_precedes_conversion_witness :
    fromDer rejectCheck anyConv [2, 1, 4] = .error (.Failure (.Custom 9)) :=
  (der_constraint_check_precedes_conversion rejectCheck anyConv rejectConv
    [2, 1, 4] [] ⟨⟨.Universal, false, ⟨2⟩, .Definite 1⟩, [4]⟩ (.Custom 9)
    rfl rfl rfl).1

/-- Tagged trait (src/src/traits.rs, lines 22 to 24): a type with one fixed
wire tag exposes it as a compile-time constant. -/
class Tagged (α : Type) where
  TAG : Tag

/-- Shallow stand-in for a shared reference: a wrapper holding the
referent. -/
structure Ref (α : Type) where
  deref : α

/-- Blanket Tagged instance for references (src/src/traits.rs, lines 26 to
31): a reference exposes the tag constant of the referent. -/
instance instTaggedRef {α : Type} [Tagged α] : Tagged (Ref α) where
  TAG := @Tagged.TAG α _

/-- DynTagged trait (src/src/traits.rs, lines 33 to 35): runtime tag
accessor on a live instance. -/
class DynTagged (α : Type) where
  tag : α → Tag

/-- Blanket DynTagged instance (src/src/traits.rs, lines 37 to 44): every
type exposing the compile-time tag constant gains the runtime accessor,
which returns that constant. -/
instance instDynTaggedOfTagged {α : Type} [Tagged α] : DynTagged α where
  tag _ := @Tagged.TAG α _

/-- C5: every type with the compile-time tag constant gains the runtime
accessor through the blanket instance, and on every instance of the type
the runtime-reported tag equals the compile-time constant. -/
theorem dynTagged_tag_eq_TAG {α : Type} [Tagged α] (x : α) :
    DynTagged.tag x = @Tagged.TAG α _ :=
  rfl

/-- C8: a reference to a type with a compile-time tag constant also has a
compile-time tag constant, and the two constants are equal. -/
theorem ref_TAG_eq_TAG {α : Type} [Tagged α] :
    @Tagged.TAG (Ref α) _ = @Tagged.TAG α _ :=
  rfl

/-- Modelled from the spec: a serialization failure is exactly an
input-output failure of the underlying byte sink, carried as an opaque
code. -/
structure SerializeError where
  code : Nat
  deriving DecidableEq

/-- Result of a serialization step. -/
def SerializeResult (α : Type) : Type :=
  Except SerializeError α

/-- Shallow embedding of the ToDer trait (src/src/traits.rs, lines 126 to
182). A byte sink is its list of already-written bytes; a write primitive
takes the value and the sink and returns the reported byte count and the
new sink, or the sink failure. The required members toDerLen,
writeDerHeader and writeDerContent are supplied by each concrete type; the
provided member writeDerRaw defaults to the composed full write (header
then content), as in the source, and a concrete type may override it. -/
structure ToDer (α : Type) where
  toDerLen : α → Except Error Nat
  writeDerHeader : α → List Nat → SerializeResult (Nat × List Nat)
  writeDerContent : α → List Nat → SerializeResult (Nat × List Nat)
  writeDerRaw : α → List Nat → SerializeResult (Nat × List Nat) :=
    fun a w =>
      match writeDerHeader a w with
      | .error e => .error e
      | .ok (sz, w1) =>
        match writeDerContent a w1 with
        | .error e => .error e
        | .ok (sz2, w2) => .ok (sz + sz2, w2)

/-- Composed full write, provided by the trait (src/src/traits.rs, lines
165 to 169): write the header, then the content, and return the sum of the
two reported counts; a failing write short-circuits. -/
def ToDer.writeDer {α : Type} (inst : ToDer α) (a : α) (w : List Nat) :
    SerializeResult (Nat × List Nat) :=
  match inst.writeDerHeader a w with
  | .error e => .error e
  | .ok (sz, w1) =>
    match inst.writeDerContent a w1 with
    | .error e => .error e
    | .ok (sz2, w2) => .ok (sz + sz2, w2)

/-- Buffered full encoding, provided by the trait (src/src/traits.rs, lines
137 to 141): run the composed write on a newly allocated empty sink and
return the bytes it holds. -/
def ToDer.toDerVec {α : Type} (inst : ToDer α) (a : α) :
    SerializeResult (List Nat) :=
  match inst.writeDer a [] with
  | .error e => .error e
  | .ok (_, v) => .ok v

/-- Buffered raw encoding, provided by the trait (src/src/traits.rs, lines
145 to 149): same as the buffered full encoding but through the raw write
path. -/
def ToDer.toDerVecRaw {α : Type} (inst : ToDer α) (a : α) :
    SerializeResult (List Nat) :=
  match inst.writeDerRaw a [] with
  | .error e => .error e
  | .ok (_, v) => .ok v

/-- Blanket ToDer implementation for references (src/src/traits.rs, lines
184 to 200): the three required members delegate to the referent; the
provided members keep their defaults. -/
def refToDer {α : Type} (inst : ToDer α) : ToDer (Ref α) where
  toDerLen r := inst.toDerLen r.deref
  writeDerHeader r w := inst.writeDerHeader r.deref w
  writeDerContent r w := inst.writeDerContent r.deref w

/-- Concrete serializer used by witnesses: encodes a small natural number
the way the spec example encodes the integer four, a two-byte header 2 1
followed by one content byte. The provided raw write keeps its default. -/
def natToDer : ToDer Nat where
  toDerLen _ := .ok 3
  writeDerHeader _ w := .ok (2, w ++ [2, 1])
  writeDerContent n w := .ok (1, w ++ [n % 256])

/-- C6: the composed full write first runs the header write, then the
content write on the sink the header write produced, and on success
returns the sum of the two reported counts; when the header write fails,
its error is returned unchanged and the result does not depend on the
content write, so the content write is never attempted. -/
theorem writeDer_header_then_content {α : Type} (inst inst2 : ToDer α)
    (a : α) (w : List Nat)
    (hsame : inst2.writeDerHeader = inst.writeDerHeader) :
    (∀ s1 w1 s2 w2,
      inst.writeDerHeader a w = .ok (s1, w1) →
      inst.writeDerContent a w1 = .ok (s2, w2) →
      inst.writeDer a w = .ok (s1 + s2, w2)) ∧
    (∀ e, inst.writeDerHeader a w = .error e →
      inst.writeDer a w = .error e ∧
      inst.writeDer a w = inst2.writeDer a w) := by
  constructor
  · intro s1 w1 s2 w2 hh hc
    simp [ToDer.writeDer, hh, hc]
  · intro e hh
    constructor
    · simp [ToDer.writeDer, hh]
    · simp [ToDer.writeDer, hsame, hh]

/-- C6 witness: the witness serializer writes the header bytes 2 1 and then
the content byte 4 into an empty sink, reporting three bytes in total, the
spec example for the integer four. -/
theorem writeDer_header_then_content_witness :
    ToDer.writeDer natToDer 4 [] = .ok (3, [2, 1, 4]) :=
  (writeDer_header_then_content natToDer natToDer 4 [] rfl).1 2 [2, 1] 1
    [2, 1, 4] rfl rfl

/-- C7: serializing through a reference gives the same result as
serializing the value: the delegated members (encoded length, header
write, content write) agree on every value and sink, and therefore the
composed full write and the buffered encoding agree as well. -/
theorem ref_serializes_like_value {α : Type} (inst : ToDer α) (a : α)
    (w : List Nat) :
    (refToDer inst).toDerLen ⟨a⟩ = inst.toDerLen a ∧
    (refToDer inst).writeDerHeader ⟨a⟩ w = inst.writeDerHeader a w ∧
    (refToDer inst).writeDerContent ⟨a⟩ w = inst.writeDerContent a w ∧
    ToDer.writeDer (refToDer inst) ⟨a⟩ w = ToDer.writeDer inst a w ∧
    ToDer.toDerVec (refToDer inst) ⟨a⟩ = ToDer.toDerVec inst a :=
  ⟨rfl, rfl, rfl, rfl, rfl⟩

/-- C9: the buffered encoding succeeds exactly when the composed full write
into an initially empty sink succeeds, and on success it returns exactly
the bytes that write left in the sink. -/
theorem toDerVec_buffers_writeDer {α : Type} (inst : ToDer α) (a : α) :
    (∀ sz v, inst.writeDer a [] = .ok (sz, v) → inst.toDerVec a = .ok v) ∧
    (∀ e, inst.writeDer a [] = .error e → inst.toDerVec a = .error e) := by
  constructor
  · intro sz v h
    simp [ToDer.toDerVec, h]
  · intro e h
    simp [ToDer.toDerVec, h]

/-- C10: for a serializer that leaves the raw write at its provided
default, the raw path coincides with the canonical path: the raw write
equals the composed full write on every value and sink, and the buffered
raw encoding equals the buffered canonical encoding on every value. -/
theorem raw_path_defaults_to_canonical {α : Type} (inst : ToDer α)
    (hraw : inst.writeDerRaw = fun a w => inst.writeDer a w) :
    (∀ a w, inst.writeDerRaw a w = inst.writeDer a w) ∧
    (∀ a, inst.toDerVecRaw a = inst.toDerVec a) := by
  constructor
  · intro a w
    rw [hraw]
  · intro a
    simp [ToDer.toDerVecRaw, ToDer.toDerVec, hraw]

/-- C10 witness: the witness serializer keeps the default raw write, so its
buffered raw encoding of the integer four equals its buffered canonical
encoding. -/
theorem raw_path_defaults_to_canonical_witness :
    ToDer.toDerVecRaw natToDer 4 = ToDer.toDerVec natToDer 4 :=
  (raw_path_defaults_to_canonical natToDer rfl).2 4

end Asn1
